import Mathlib

/-!
Verification of the XML extraction/consolidation core of streamlit-xml-nf.

The Python sources (src/xml_parser.py, src/backup_xml_parser.py) are embedded
shallowly:

* An lxml element is an `XmlTree` node carrying the namespace part of its
  qualified tag (`none` for elements in no namespace), its local tag name,
  its direct text (`elem.text`, the text before the first child; `none` when
  lxml would report `None`), and its ordered children.
* `etree.iterparse(source, events=("end",), tag=t)` is the post-order
  (end-event order) list of elements whose qualified tag matches the plain
  name `t`, i.e. elements in no namespace whose local name equals `t`.
* A `collections.Counter` is modelled by the list of observed values in
  insertion order; its counts are `List.count` and its keys (in first
  insertion order, as Python dicts iterate) are `dedupFirst`.
* Python `str.strip()` / `str.upper()` are `pyStrip` / `pyUpper`, written
  over the character list so that they compute inside the kernel.
* Fallible paths (`except ...: return None`) are modelled with `Option`.
* The memory-release calls (`elem.clear()`, deleting previous siblings) have
  no observable effect on the returned values for the non-nested documents
  these functions iterate, and are not modelled.
-/

/-- Python str.strip() for the whitespace the repository's data uses:
drop leading and trailing whitespace characters. -/
def pyStrip (s : String) : String :=
  ⟨((s.data.dropWhile Char.isWhitespace).reverse.dropWhile Char.isWhitespace).reverse⟩

/-- Python str.upper() (ASCII letters, which is all the code compares). -/
def pyUpper (s : String) : String :=
  ⟨s.data.map Char.toUpper⟩

/-- Python "x/y".split("/") specialised to the separator the code uses. -/
def splitSlashAux : List Char → List Char → List String
  | [], acc => [⟨acc.reverse⟩]
  | c :: rest, acc =>
    if c = '/' then ⟨acc.reverse⟩ :: splitSlashAux rest []
    else splitSlashAux rest (c :: acc)

def splitSlash (s : String) : List String := splitSlashAux s.data []

/-- An lxml element: namespace part of the qualified tag, local name,
direct text (`elem.text`), children in document order. -/
inductive XmlTree where
  | elem (tagNs : Option String) (tagLocal : String) (textContent : Option String)
      (children : List XmlTree)

def XmlTree.tagNs : XmlTree → Option String
  | .elem ns _ _ _ => ns

def XmlTree.tagLocal : XmlTree → String
  | .elem _ n _ _ => n

def XmlTree.textContent : XmlTree → Option String
  | .elem _ _ t _ => t

def XmlTree.children : XmlTree → List XmlTree
  | .elem _ _ _ cs => cs

/-- Qualified-tag match for a plain (namespace-free) tag name, as lxml
performs for `iterparse(..., tag=name)` and path steps without a prefix. -/
def plainTagIs (e : XmlTree) (t : String) : Bool :=
  e.tagNs.isNone && e.tagLocal == t

/-- Local-name match regardless of namespace, as lxml does for a
wildcard-namespace pattern. -/
def localTagIs (e : XmlTree) (t : String) : Bool :=
  e.tagLocal == t

mutual
/-- Elements of the subtree in end-event (post-order) document order,
including the root of the subtree. -/
def postorderElems : XmlTree → List XmlTree
  | .elem ns n t cs => postorderForest cs ++ [XmlTree.elem ns n t cs]

def postorderForest : List XmlTree → List XmlTree
  | [] => []
  | c :: cs => postorderElems c ++ postorderForest cs
end

mutual
/-- Proper descendants of an element in document (pre-)order. -/
def descendants : XmlTree → List XmlTree
  | .elem _ _ _ cs => preorderForest cs

def preorderForest : List XmlTree → List XmlTree
  | [] => []
  | c :: cs => (c :: descendants c) ++ preorderForest cs
end

/-- `etree.iterparse(source, events=("end",), tag=tagName)`: the elements of
the document whose qualified tag is the plain name `tagName`, in end-event
order. -/
def iterparseEnd (doc : XmlTree) (tagName : String) : List XmlTree :=
  (postorderElems doc).filter (fun e => plainTagIs e tagName)

/-- Python truthiness of `elem.text`: `some s` when the text is present and
non-empty, `none` otherwise. -/
def truthyText (e : XmlTree) : Option String :=
  match e.textContent with
  | none => none
  | some s => if s == "" then none else some s

/-- `elem.text.strip() if elem.text else ""` from extract_tag_data. -/
def elemObservedText (e : XmlTree) : String :=
  match truthyText e with
  | some s => pyStrip s
  | none => ""

/-- extract_tag_data (src/xml_parser.py lines 9-28): iterate end events of
`tagName` elements and count each element's stripped direct text.  The
returned list of observations in order models the Counter; the error
branches are unreachable for an already parsed document, so the result is
total here (a source that fails to parse is handled at the process_files
level). -/
def extract_tag_data (doc : XmlTree) (tagName : String) : List String :=
  (iterparseEnd doc tagName).map elemObservedText

/-- Keys of the Counter in first-insertion order (Python dict order).
`seen` accumulates the keys already emitted. -/
def dedupFirstAux : List String → List String → List String
  | _, [] => []
  | seen, v :: rest =>
    if v ∈ seen then dedupFirstAux seen rest
    else v :: dedupFirstAux (v :: seen) rest

def dedupFirst (l : List String) : List String := dedupFirstAux [] l

theorem mem_dedupFirstAux (u : String) :
    ∀ (l seen : List String), u ∈ dedupFirstAux seen l ↔ u ∈ l ∧ u ∉ seen := by
  intro l
  induction l with
  | nil => intro seen; simp [dedupFirstAux]
  | cons v rest ih =>
    intro seen
    by_cases hv : v ∈ seen
    · simp only [dedupFirstAux, if_pos hv, ih, List.mem_cons]
      constructor
      · rintro ⟨h1, h2⟩; exact ⟨Or.inr h1, h2⟩
      · rintro ⟨h1 | h1, h2⟩
        · exact absurd (h1 ▸ hv) h2
        · exact ⟨h1, h2⟩
    · simp only [dedupFirstAux, if_neg hv, List.mem_cons, ih]
      constructor
      · rintro (h | ⟨h1, h2⟩)
        · exact ⟨Or.inl h, h ▸ hv⟩
        · exact ⟨Or.inr h1, fun hc => h2 (Or.inr hc)⟩
      · rintro ⟨h1 | h1, h2⟩
        · exact Or.inl h1
        · by_cases huv : u = v
          · exact Or.inl huv
          · exact Or.inr ⟨h1, fun hc => hc.elim huv h2⟩

theorem mem_dedupFirst (u : String) (l : List String) :
    u ∈ dedupFirst l ↔ u ∈ l := by
  simp [dedupFirst, mem_dedupFirstAux]

theorem nodup_dedupFirstAux :
    ∀ (l seen : List String), (dedupFirstAux seen l).Nodup := by
  intro l
  induction l with
  | nil => intro seen; simp [dedupFirstAux]
  | cons v rest ih =>
    intro seen
    by_cases hv : v ∈ seen
    · simpa [dedupFirstAux, if_pos hv] using ih seen
    · simp only [dedupFirstAux, if_neg hv, List.nodup_cons]
      refine ⟨fun hc => ?_, ih (v :: seen)⟩
      have := (mem_dedupFirstAux v rest (v :: seen)).1 hc
      exact this.2 (List.mem_cons_self _ _)

theorem nodup_dedupFirst (l : List String) : (dedupFirst l).Nodup :=
  nodup_dedupFirstAux l []

theorem dedupFirst_perm_dedup (l : List String) : (dedupFirst l).Perm l.dedup := by
  refine List.perm_of_nodup_nodup_toFinset_eq (nodup_dedupFirst l) l.nodup_dedup ?_
  ext a
  simp [List.mem_toFinset, mem_dedupFirst, List.mem_dedup]

/-- Summing the counts over the Counter keys recovers the number of
observations. -/
theorem sum_counts_dedupFirst (l : List String) :
    ((dedupFirst l).map (fun v => l.count v)).sum = l.length := by
  have hperm : ((dedupFirst l).map (fun v => l.count v)).Perm
      (l.dedup.map (fun v => l.count v)) :=
    (dedupFirst_perm_dedup l).map _
  rw [hperm.sum_eq]
  simpa using List.sum_map_count_dedup_eq_length l

theorem elemObservedText_eq_trim (e : XmlTree) :
    elemObservedText e = pyStrip (e.textContent.getD "") := by
  unfold elemObservedText truthyText
  match h : e.textContent with
  | none => simp [h, pyStrip]
  | some s =>
    by_cases hs : s = ""
    · simp [h, hs, pyStrip]
    · simp [h, hs]

/-- C1: for every document and tag name, extract_tag_data yields a counter
whose per-key counts sum to the number of elements of that tag in the
document, each element's observed value is its direct text trimmed of
surrounding whitespace (missing or whitespace-only text giving the empty
string), and the distinct trimmed values are exactly the counter keys, each
appearing once. -/
theorem extract_tag_data_counter_correct (doc : XmlTree) (tagName : String) :
    ((dedupFirst (extract_tag_data doc tagName)).map
        (fun v => (extract_tag_data doc tagName).count v)).sum
      = ((postorderElems doc).filter (fun e => plainTagIs e tagName)).length
    ∧ extract_tag_data doc tagName
        = (iterparseEnd doc tagName).map (fun e => pyStrip (e.textContent.getD ""))
    ∧ (dedupFirst (extract_tag_data doc tagName)).Nodup
    ∧ ∀ v : String,
        v ∈ dedupFirst (extract_tag_data doc tagName)
          ↔ v ∈ extract_tag_data doc tagName := by
  refine ⟨?_, ?_, nodup_dedupFirst _, fun v => mem_dedupFirst _ _⟩
  · rw [sum_counts_dedupFirst]
    simp [extract_tag_data, iterparseEnd]
  · simp only [extract_tag_data]
    exact List.map_congr_left (fun e _ => elemObservedText_eq_trim e)

def childrenNamed (e : XmlTree) (t : String) : List XmlTree :=
  e.children.filter (fun c => plainTagIs c t)

/-- A chain of child-axis steps applied to a set of starting elements, as an
lxml relative path `a/b/c` without prefixes resolves. -/
def xpathChildSteps (roots : List XmlTree) (steps : List String) : List XmlTree :=
  steps.foldl (fun acc st => acc.flatMap (fun e => childrenNamed e st)) roots

/-- `elem.xpath("./a/b")`. -/
def xpathRelative (e : XmlTree) (steps : List String) : List XmlTree :=
  xpathChildSteps [e] steps

/-- `elem.xpath(".//a/b")`: descendants named `firstStep`, then child steps. -/
def xpathDescendant (e : XmlTree) (firstStep : String) (rest : List String) : List XmlTree :=
  xpathChildSteps ((descendants e).filter (fun d => plainTagIs d firstStep)) rest

/-- `elem.find(".//t")` for a plain tag: first matching descendant. -/
def findFirstDescendantPlain (e : XmlTree) (t : String) : Option XmlTree :=
  ((descendants e).filter (fun d => plainTagIs d t)).head?

def sentinelTagAlvo : String :=
  "[TAG ALVO NÃO ENCONTRADA/VAZIA NO CONTEXTO DO FILTRO]"

/-- The xpath for the filter tag, built from the optional parent path
(src/xml_parser.py lines 49-55; an absent path is the empty string, matching
Python falsiness of both None and ""). -/
def buildFilterSteps (filterTag filterParentPath : String) : List String :=
  if filterParentPath ≠ "" then
    let cleanPath := (splitSlash filterParentPath).filter (fun p => p ≠ "")
    if cleanPath ≠ [] then cleanPath ++ [filterTag] else [filterTag]
  else [filterTag]

/-- `filter_elem_item.text and filter_elem_item.text.strip() == filter_value`. -/
def filterElemMatches (filterValue : String) (fe : XmlTree) : Bool :=
  match truthyText fe with
  | some s => pyStrip s == filterValue
  | none => false

/-- One iteration of the extract_filtered_tag_data loop of src/xml_parser.py
(lines 45-96) for one iterated `Fatura` element: find the first descendant
with the context tag (when there is none, `None.xpath` raises AttributeError
and the whole call returns None, hence `none` here), evaluate the filter
(with unrestricted-descendant fallback only when no parent path was given),
and on a match read the first target element: from the whole `Fatura` when
the target tag is the literal "nNF", from the context element otherwise. -/
def filteredContextValues (commonAncestorTag filterTag filterValue targetTag
    filterParentPath : String) (ancestorElem : XmlTree) : Option (List String) :=
  match findFirstDescendantPlain ancestorElem commonAncestorTag with
  | none => none
  | some faturaElement =>
    let filterElements0 := xpathRelative faturaElement (buildFilterSteps filterTag filterParentPath)
    let filterElements :=
      if filterElements0.isEmpty && filterParentPath == "" then
        xpathDescendant faturaElement filterTag []
      else filterElements0
    let filterMatch := filterElements.any (filterElemMatches filterValue)
    if filterMatch then
      let scope := if targetTag == "nNF" then ancestorElem else faturaElement
      match (xpathDescendant scope targetTag []).head? with
      | some te =>
        match truthyText te with
        | some s => some [pyStrip s]
        | none => some [sentinelTagAlvo]
      | none => some [sentinelTagAlvo]
    else some []

/-- One fold step of the extract_filtered_tag_data loop: accumulate the
iteration's contribution, or abort with `none` once any iteration fails. -/
def faturaStep (commonAncestorTag filterTag filterValue targetTag
    filterParentPath : String) (acc : Option (List String)) (fat : XmlTree) :
    Option (List String) :=
  match acc, filteredContextValues commonAncestorTag filterTag filterValue
      targetTag filterParentPath fat with
  | some l, some l2 => some (l ++ l2)
  | _, _ => none

/-- The loop of extract_filtered_tag_data over the iterated Fatura
elements; a `none` from any iteration (missing context tag) aborts the call
with `None`. -/
def processFaturaList (commonAncestorTag filterTag filterValue targetTag
    filterParentPath : String) (fats : List XmlTree) : Option (List String) :=
  fats.foldl
    (faturaStep commonAncestorTag filterTag filterValue targetTag filterParentPath)
    (some [])

/-- extract_filtered_tag_data (src/xml_parser.py lines 31-103).  Note the
iteration tag is the hard-coded literal "Fatura", not the caller's context
tag. -/
def extract_filtered_tag_data (doc : XmlTree) (commonAncestorTag filterTag
    filterValue targetTag filterParentPath : String) : Option (List String) :=
  processFaturaList commonAncestorTag filterTag filterValue targetTag
    filterParentPath (iterparseEnd doc "Fatura")

/-- One iteration of the backup extract_filtered_tag_data
(src/backup_xml_parser.py lines 54-101): the iterated element itself is the
context; the target is always searched below the context. -/
def backupContextValues (filterTag filterValue targetTag filterParentPath : String)
    (ancestorElem : XmlTree) : List String :=
  let filterElements0 := xpathRelative ancestorElem (buildFilterSteps filterTag filterParentPath)
  let filterElements :=
    if filterElements0.isEmpty && filterParentPath == "" then
      xpathDescendant ancestorElem filterTag []
    else filterElements0
  let filterMatch := filterElements.any (filterElemMatches filterValue)
  if filterMatch then
    match (xpathDescendant ancestorElem targetTag []).head? with
    | some te =>
      match truthyText te with
      | some s => [pyStrip s]
      | none => [sentinelTagAlvo]
    | none => [sentinelTagAlvo]
  else []

/-- extract_filtered_tag_data of src/backup_xml_parser.py (lines 38-108),
which iterates on the caller-supplied common ancestor tag. -/
def backup_extract_filtered_tag_data (doc : XmlTree) (commonAncestorTag filterTag
    filterValue targetTag filterParentPath : String) : List String :=
  (iterparseEnd doc commonAncestorTag).flatMap
    (backupContextValues filterTag filterValue targetTag filterParentPath)

/-- Leaf element with text, in no namespace. -/
def txtElem (n t : String) : XmlTree := .elem none n (some t) []

/-- Container element, in no namespace, with no direct text. -/
def node (n : String) (cs : List XmlTree) : XmlTree := .elem none n none cs

/-- The first context block of the repository's own test document
(src/backup_xml_parser.py lines 435-448). -/
def ctx1 : XmlTree :=
  node "infNFCom"
    [node "ide" [txtElem "nNF" "1001"],
     node "dest" [txtElem "xNome" "CLUBE DE CAMPO MOEMA",
                  node "enderDest" [txtElem "UF" "SP"]],
     node "outro" [txtElem "xNome" "NAO FILTRAR ESTE"]]

def ctx2 : XmlTree :=
  node "infNFCom"
    [node "ide" [txtElem "nNF" "1002"],
     node "dest" [txtElem "xNome" "OUTRO CLIENTE",
                  node "enderDest" [txtElem "UF" "RJ"]]]

def ctx3 : XmlTree :=
  node "infNFCom"
    [node "ide" [txtElem "nNF" "1003"],
     node "dest" [node "enderDest" [txtElem "UF" "SP"]]]

def ctx4 : XmlTree :=
  node "infNFCom"
    [node "ide" [txtElem "nNF" "1004"],
     node "dest" [txtElem "xNome" "CLUBE DE CAMPO MOEMA",
                  node "enderDest" [txtElem "UF" "MG"]]]

/-- The repository's test document: four context blocks as direct siblings
of the root, no Fatura element anywhere. -/
def siblingContextDoc : XmlTree := node "documento" [ctx1, ctx2, ctx3, ctx4]

/-- The same four context blocks, each inside its own Fatura record. -/
def faturaWrappedDoc : XmlTree :=
  node "documento"
    [node "Fatura" [ctx1], node "Fatura" [ctx2],
     node "Fatura" [ctx3], node "Fatura" [ctx4]]

/-- Two Fatura records: the first has no infNFCom context at all, the second
holds a context that matches the filter. -/
def missingCtxDoc : XmlTree :=
  node "documento" [node "Fatura" [node "foo" []], node "Fatura" [ctx4]]

/-- C2 counterexample: on a document whose four context blocks (two of them
matching dest/xNome = "CLUBE DE CAMPO MOEMA") are not wrapped in Fatura
elements — the repository's own test document — the current filtered
extraction returns an empty counter instead of the two nNF values, because
it iterates only on the hard-coded tag "Fatura". -/
theorem extract_filtered_sibling_contexts_counterexample :
    extract_filtered_tag_data siblingContextDoc "infNFCom" "xNome"
        "CLUBE DE CAMPO MOEMA" "nNF" "dest" = some []
    ∧ (iterparseEnd siblingContextDoc "infNFCom").length = 4
    ∧ ((iterparseEnd siblingContextDoc "infNFCom").filter
        (fun c => (xpathRelative c ["dest", "xNome"]).any
          (filterElemMatches "CLUBE DE CAMPO MOEMA"))).length = 2 :=
  ⟨rfl, rfl, rfl⟩

/-- C2 (amended): the filtered extraction returns exactly the two matching
nNF values with count 1 each, and nothing from the two non-matching
contexts, provided each context block lies inside its own Fatura element
(the current extractor iterates Fatura elements); the backup implementation
returns the claimed result for the sibling-structured document directly. -/
theorem extract_filtered_four_contexts_correct :
    extract_filtered_tag_data faturaWrappedDoc "infNFCom" "xNome"
        "CLUBE DE CAMPO MOEMA" "nNF" "dest" = some ["1001", "1004"]
    ∧ ["1001", "1004"].count "1001" = 1
    ∧ ["1001", "1004"].count "1004" = 1
    ∧ dedupFirst ["1001", "1004"] = ["1001", "1004"]
    ∧ backup_extract_filtered_tag_data siblingContextDoc "infNFCom" "xNome"
        "CLUBE DE CAMPO MOEMA" "nNF" "dest" = ["1001", "1004"] :=
  ⟨rfl, rfl, rfl, rfl, rfl⟩

/-- A document whose only nNF-named element lives in a namespace. -/
def nsDoc : XmlTree := node "root" [XmlTree.elem (some "urn:ns") "nNF" (some "1") []]

/-- C3 counterexample: an element whose local name is nNF but which carries a
namespace is not counted by extract_tag_data, because
`iterparse(..., tag="nNF")` matches the qualified name exactly. -/
theorem extract_tag_data_namespace_counterexample :
    extract_tag_data nsDoc "nNF" = []
    ∧ ((postorderElems nsDoc).filter (fun e => localTagIs e "nNF")).length = 1 :=
  ⟨rfl, rfl⟩

/-- C3 (amended): extract_tag_data triggers exactly on elements whose
qualified tag equals the plain tag name — elements in no namespace with that
local name; an element carrying any namespace is never counted, so the
matching is namespace-exact, not namespace-agnostic. -/
theorem extract_tag_data_namespace_exact (doc : XmlTree) (tagName : String) :
    ((iterparseEnd doc tagName).filter (fun e => !e.tagNs.isNone)).length = 0
    ∧ (iterparseEnd doc tagName).length
        = ((postorderElems doc).filter
            (fun e => e.tagNs.isNone && e.tagLocal == tagName)).length := by
  constructor
  · rw [List.length_eq_zero, List.filter_eq_nil_iff]
    intro e he
    simp only [iterparseEnd] at he
    have hp : plainTagIs e tagName = true := (List.mem_filter.mp he).2
    simp only [plainTagIs, Bool.and_eq_true] at hp
    simp [hp.1]
  · rfl

theorem faturaStep_none_acc (commonAncestorTag filterTag filterValue targetTag
    filterParentPath : String) (fat : XmlTree) :
    faturaStep commonAncestorTag filterTag filterValue targetTag filterParentPath
      none fat = none := by
  unfold faturaStep
  cases filteredContextValues commonAncestorTag filterTag filterValue targetTag
      filterParentPath fat <;> rfl

theorem foldl_faturaStep_none (commonAncestorTag filterTag filterValue targetTag
    filterParentPath : String) :
    ∀ fats : List XmlTree,
      fats.foldl (faturaStep commonAncestorTag filterTag filterValue targetTag
        filterParentPath) none = none := by
  intro fats
  induction fats with
  | nil => rfl
  | cons fat rest ih =>
    rw [List.foldl_cons, faturaStep_none_acc]
    exact ih

theorem faturaStep_skip (commonAncestorTag filterTag filterValue targetTag
    filterParentPath : String) (acc : Option (List String)) (fat : XmlTree)
    (h : filteredContextValues commonAncestorTag filterTag filterValue targetTag
      filterParentPath fat = some []) :
    faturaStep commonAncestorTag filterTag filterValue targetTag filterParentPath
      acc fat = acc := by
  unfold faturaStep
  rw [h]
  cases acc with
  | none => rfl
  | some l => simp

theorem faturaStep_abort (commonAncestorTag filterTag filterValue targetTag
    filterParentPath : String) (acc : Option (List String)) (fat : XmlTree)
    (h : filteredContextValues commonAncestorTag filterTag filterValue targetTag
      filterParentPath fat = none) :
    faturaStep commonAncestorTag filterTag filterValue targetTag filterParentPath
      acc fat = none := by
  unfold faturaStep
  rw [h]
  cases acc <;> rfl

/-- C7 (amended): an iterated context whose filter query yields zero matches
contributes nothing and the surrounding contexts of the document are
processed normally; but when the context tag itself is absent under an
iterated Fatura element, the whole extraction aborts with the error result
`None`, so the remaining contexts are not processed at all. -/
theorem extract_filtered_zero_match_skip (commonAncestorTag filterTag filterValue
    targetTag filterParentPath : String) (pre post : List XmlTree) (fat : XmlTree) :
    (filteredContextValues commonAncestorTag filterTag filterValue targetTag
        filterParentPath fat = some [] →
      processFaturaList commonAncestorTag filterTag filterValue targetTag
          filterParentPath (pre ++ fat :: post)
        = processFaturaList commonAncestorTag filterTag filterValue targetTag
            filterParentPath (pre ++ post))
    ∧ (filteredContextValues commonAncestorTag filterTag filterValue targetTag
        filterParentPath fat = none →
      processFaturaList commonAncestorTag filterTag filterValue targetTag
          filterParentPath (pre ++ fat :: post) = none) := by
  constructor
  · intro h
    unfold processFaturaList
    rw [List.foldl_append, List.foldl_append, List.foldl_cons, faturaStep_skip _ _ _ _ _ _ _ h]
  · intro h
    unfold processFaturaList
    rw [List.foldl_append, List.foldl_cons, faturaStep_abort _ _ _ _ _ _ _ h]
    exact foldl_faturaStep_none _ _ _ _ _ post

/-- Witness for the amended C7 statement: skipping a non-matching context
between two processed ones, and aborting on a Fatura with no context tag. -/
theorem extract_filtered_zero_match_skip_witness :
    processFaturaList "infNFCom" "xNome" "CLUBE DE CAMPO MOEMA" "nNF" "dest"
        ([node "Fatura" [ctx1]] ++ node "Fatura" [ctx2] :: [node "Fatura" [ctx4]])
      = processFaturaList "infNFCom" "xNome" "CLUBE DE CAMPO MOEMA" "nNF" "dest"
          ([node "Fatura" [ctx1]] ++ [node "Fatura" [ctx4]])
    ∧ processFaturaList "infNFCom" "xNome" "CLUBE DE CAMPO MOEMA" "nNF" "dest"
        ([] ++ node "Fatura" [node "foo" []] :: [node "Fatura" [ctx4]]) = none :=
  ⟨(extract_filtered_zero_match_skip "infNFCom" "xNome" "CLUBE DE CAMPO MOEMA"
      "nNF" "dest" [node "Fatura" [ctx1]] [node "Fatura" [ctx4]]
      (node "Fatura" [ctx2])).1 rfl,
   (extract_filtered_zero_match_skip "infNFCom" "xNome" "CLUBE DE CAMPO MOEMA"
      "nNF" "dest" [] [node "Fatura" [ctx4]]
      (node "Fatura" [node "foo" []])).2 rfl⟩

/-- C7 counterexample: a Fatura with the context tag absent makes the whole
call return `None`, so the matching context that follows it is not counted,
although on its own it would contribute the value 1004. -/
theorem extract_filtered_missing_context_aborts :
    extract_filtered_tag_data missingCtxDoc "infNFCom" "xNome"
        "CLUBE DE CAMPO MOEMA" "nNF" "dest" = none
    ∧ filteredContextValues "infNFCom" "xNome" "CLUBE DE CAMPO MOEMA" "nNF" "dest"
        (node "Fatura" [ctx4]) = some ["1004"] :=
  ⟨rfl, rfl⟩

/-- One row of the results list built by process_files: the dict with keys
"Nome do Arquivo", "TAG", "Filtro", "Valor", "Ocorrência". -/
structure ResultRecord where
  nomeArquivo : String
  tag : String
  filtro : String
  valor : String
  ocorrencia : Nat

/-- An input of process_files / the consolidators, as the duck-typed source
handling resolves it: a readable source that parses, a source that is
neither an uploaded buffer nor an existing path, or a source whose bytes
fail to parse (etree.XMLSyntaxError). -/
inductive FileSource where
  | ok (name : String) (doc : XmlTree)
  | invalidSource (name : String)
  | syntaxErrorSource (name : String)

def FileSource.sourceName : FileSource → String
  | .ok n _ => n
  | .invalidSource n => n
  | .syntaxErrorSource n => n

def sentinelArquivoInvalido : String := "[ARQUIVO INVÁLIDO]"

def sentinelErroProcessar : String := "[ERRO AO PROCESSAR XML]"

def sentinelNenhumValor : String := "[NENHUM VALOR ENCONTRADO COM ESTES CRITÉRIOS]"

/-- `bool(parent_tag and filter_tag and filter_value)`; absent optional
arguments are the empty string, matching Python falsiness of None and "". -/
def isFiltering (parentTag filterTag filterValue : String) : Bool :=
  (parentTag != "") && (filterTag != "") && (filterValue != "")

/-- The "Filtro" column text (src/xml_parser.py lines 123-134). -/
def filterDescription (parentTag filterTag filterValue filterParentPath : String) :
    String :=
  let parts :=
    (if parentTag != "" then ["Contexto: " ++ parentTag] else [])
      ++ (if filterTag != "" then ["Tag Filtro: " ++ filterTag] else [])
      ++ (if filterParentPath != "" then ["Caminho Filtro: " ++ filterParentPath] else [])
      ++ (if filterValue != "" then ["Valor Filtro: " ++ filterValue] else [])
  if isFiltering parentTag filterTag filterValue then
    String.intercalate ", " parts
  else "Nenhum"

/-- The records process_files emits for one input file (the body of the
loop, src/xml_parser.py lines 119-213): an invalid source or a failed parse
yields exactly one placeholder row with count 0; an empty counter yields the
no-match placeholder row; otherwise one row per distinct value, in first
insertion order, carrying that value's count.  The generic
`[ERRO INESPERADO: ...]` handler guards faults the pure model cannot
produce and is therefore unreachable here. -/
def processOneFile (tagName parentTag filterTag filterValue filterParentPath : String) :
    FileSource → List ResultRecord
  | .invalidSource name =>
    [⟨name, tagName, filterDescription parentTag filterTag filterValue filterParentPath,
      sentinelArquivoInvalido, 0⟩]
  | .syntaxErrorSource name =>
    [⟨name, tagName, filterDescription parentTag filterTag filterValue filterParentPath,
      sentinelErroProcessar, 0⟩]
  | .ok name doc =>
    let fd := filterDescription parentTag filterTag filterValue filterParentPath
    let tagData : Option (List String) :=
      if isFiltering parentTag filterTag filterValue then
        extract_filtered_tag_data doc parentTag filterTag filterValue tagName
          filterParentPath
      else some (extract_tag_data doc tagName)
    match tagData with
    | none => [⟨name, tagName, fd, sentinelErroProcessar, 0⟩]
    | some vals =>
      if vals.isEmpty then [⟨name, tagName, fd, sentinelNenhumValor, 0⟩]
      else (dedupFirst vals).map (fun v => ⟨name, tagName, fd, v, vals.count v⟩)

/-- process_files (src/xml_parser.py lines 106-217): the loop appends each
file's records to the growing results list. -/
def process_files (files : List FileSource)
    (tagName parentTag filterTag filterValue filterParentPath : String) :
    List ResultRecord :=
  files.foldl
    (fun acc f =>
      acc ++ processOneFile tagName parentTag filterTag filterValue filterParentPath f)
    []

theorem foldl_append_eq_flatMap {α β : Type} (g : α → List β) :
    ∀ (l : List α) (acc : List β),
      l.foldl (fun a x => a ++ g x) acc = acc ++ l.flatMap g := by
  intro l
  induction l with
  | nil => intro acc; simp
  | cons x rest ih => intro acc; simp [ih]

theorem dedupFirst_ne_nil (v : String) (rest : List String) :
    dedupFirst (v :: rest) ≠ [] := by
  simp [dedupFirst, dedupFirstAux]

/-- C6: process_files is total and per-file isolated: its output is the
concatenation, in input order, of each file's records; every file
contributes at least one record; an invalid source and a parse failure each
become exactly one placeholder record with occurrence count 0 and the
corresponding sentinel value, and the remaining files are still processed
(immediate from the concatenation form). -/
theorem process_files_isolates_failures (files : List FileSource)
    (tagName parentTag filterTag filterValue filterParentPath : String) :
    process_files files tagName parentTag filterTag filterValue filterParentPath
      = files.flatMap
          (processOneFile tagName parentTag filterTag filterValue filterParentPath)
    ∧ (∀ f : FileSource,
        1 ≤ (processOneFile tagName parentTag filterTag filterValue
          filterParentPath f).length)
    ∧ (∀ n : String,
        processOneFile tagName parentTag filterTag filterValue filterParentPath
          (FileSource.invalidSource n)
        = [⟨n, tagName,
            filterDescription parentTag filterTag filterValue filterParentPath,
            sentinelArquivoInvalido, 0⟩])
    ∧ (∀ n : String,
        processOneFile tagName parentTag filterTag filterValue filterParentPath
          (FileSource.syntaxErrorSource n)
        = [⟨n, tagName,
            filterDescription parentTag filterTag filterValue filterParentPath,
            sentinelErroProcessar, 0⟩]) := by
  refine ⟨foldl_append_eq_flatMap _ files [], ?_, fun n => rfl, fun n => rfl⟩
  intro f
  cases f with
  | invalidSource n => simp [processOneFile]
  | syntaxErrorSource n => simp [processOneFile]
  | ok n doc =>
    simp only [processOneFile]
    cases htd : (if isFiltering parentTag filterTag filterValue then
        extract_filtered_tag_data doc parentTag filterTag filterValue tagName
          filterParentPath
      else some (extract_tag_data doc tagName)) with
    | none => simp
    | some vals =>
      cases vals with
      | nil => simp
      | cons v rest =>
        simp only [List.isEmpty_cons, Bool.false_eq_true, if_false, List.length_map]
        exact Nat.one_le_iff_ne_zero.mpr
          (fun hlen => dedupFirst_ne_nil v rest (List.length_eq_zero.mp hlen))

/-- A document whose single Fatura context matches the filter but contains
no target tag at all, so the counter receives the in-counter sentinel. -/
def sentinelDoc : XmlTree :=
  node "documento"
    [node "Fatura" [node "infNFCom" [node "dest" [txtElem "xNome" "X"]]]]

/-- C8 counterexample: a matched context with no target element yields a
record whose value is the placeholder sentinel substituted for the absent
target, yet its occurrence count is 1, not 0 — the counter-level sentinel is
counted like any extracted value. -/
theorem process_files_sentinel_positive_count :
    process_files [FileSource.ok "f" sentinelDoc] "nNF" "infNFCom" "xNome" "X" "dest"
      = [⟨"f", "nNF",
          "Contexto: infNFCom, Tag Filtro: xNome, Caminho Filtro: dest, Valor Filtro: X",
          sentinelTagAlvo, 1⟩] :=
  rfl

/-- C8 (amended): every record emitted by the per-file placeholder branches
(invalid source, parse error, empty counter) has occurrence count 0 and one
of those three sentinel values; every other record carries a positive count
taken from the extraction counter.  The counter-level sentinel
`[TAG ALVO NÃO ENCONTRADA/VAZIA NO CONTEXTO DO FILTRO]` is a counter value,
so records holding it can carry positive counts. -/
theorem processOneFile_placeholder_counts (tagName parentTag filterTag filterValue
    filterParentPath : String) (f : FileSource) (r : ResultRecord)
    (hr : r ∈ processOneFile tagName parentTag filterTag filterValue
      filterParentPath f) :
    0 < r.ocorrencia
    ∨ (r.ocorrencia = 0
        ∧ (r.valor = sentinelArquivoInvalido ∨ r.valor = sentinelErroProcessar
            ∨ r.valor = sentinelNenhumValor)) := by
  cases f with
  | invalidSource n =>
    simp only [processOneFile, List.mem_singleton] at hr
    subst hr
    exact Or.inr ⟨rfl, Or.inl rfl⟩
  | syntaxErrorSource n =>
    simp only [processOneFile, List.mem_singleton] at hr
    subst hr
    exact Or.inr ⟨rfl, Or.inr (Or.inl rfl)⟩
  | ok n doc =>
    simp only [processOneFile] at hr
    cases htd : (if isFiltering parentTag filterTag filterValue then
        extract_filtered_tag_data doc parentTag filterTag filterValue tagName
          filterParentPath
      else some (extract_tag_data doc tagName)) with
    | none =>
      rw [htd] at hr
      simp only [List.mem_singleton] at hr
      subst hr
      exact Or.inr ⟨rfl, Or.inr (Or.inl rfl)⟩
    | some vals =>
      rw [htd] at hr
      cases vals with
      | nil =>
        simp only [List.isEmpty_nil, if_true, List.mem_singleton] at hr
        subst hr
        exact Or.inr ⟨rfl, Or.inr (Or.inr rfl)⟩
      | cons v rest =>
        simp only [List.isEmpty_cons, Bool.false_eq_true, if_false,
          List.mem_map] at hr
        obtain ⟨u, hu, hru⟩ := hr
        subst hru
        left
        have humem : u ∈ v :: rest := (mem_dedupFirst u (v :: rest)).1 hu
        simpa using List.count_pos_iff.mpr humem

/-- Witness for the amended C8 statement: the invalid-source placeholder
record satisfies the dichotomy. -/
theorem processOneFile_placeholder_counts_witness :
    0 < (ResultRecord.mk "g" "nNF" "Nenhum" sentinelArquivoInvalido 0).ocorrencia
    ∨ ((ResultRecord.mk "g" "nNF" "Nenhum" sentinelArquivoInvalido 0).ocorrencia = 0
        ∧ ((ResultRecord.mk "g" "nNF" "Nenhum" sentinelArquivoInvalido 0).valor
              = sentinelArquivoInvalido
          ∨ (ResultRecord.mk "g" "nNF" "Nenhum" sentinelArquivoInvalido 0).valor
              = sentinelErroProcessar
          ∨ (ResultRecord.mk "g" "nNF" "Nenhum" sentinelArquivoInvalido 0).valor
              = sentinelNenhumValor)) :=
  processOneFile_placeholder_counts "nNF" "" "" "" ""
    (FileSource.invalidSource "g") _ (List.mem_singleton.mpr rfl)

/-- `fatura_elem.findtext(".//" + wildcard + target_tag)`: text of the first
descendant whose local name matches regardless of namespace; an element
found with no text reports the empty string, no element reports None. -/
def findtextWildcard (e : XmlTree) (t : String) : Option String :=
  (((descendants e).filter (fun d => localTagIs d t)).head?).map
    (fun d => d.textContent.getD "")

/-- The selection test of consolidate_faturas_by_result
(src/xml_parser.py lines 253-254):
`target_text and target_text.strip().upper() in expected_values`.
Note `expected_values` is used as stored — the extracted values are NOT
uppercased when the set is built. -/
def faturaSelected (expectedValues : List String) (targetTag : String)
    (fatura : XmlTree) : Bool :=
  match findtextWildcard fatura targetTag with
  | none => false
  | some t => (t != "") && expectedValues.contains (pyUpper (pyStrip t))

/-- The Fatura elements one input file contributes to the result-driven
consolidation; unreadable and unparseable files are skipped. -/
def consolidateFileFaturas (expectedValues : List String) (targetTag : String) :
    FileSource → List XmlTree
  | .ok _ doc =>
    (iterparseEnd doc "Fatura").filter (faturaSelected expectedValues targetTag)
  | .invalidSource _ => []
  | .syntaxErrorSource _ => []

mutual
/-- Serialization of a matched subtree, standing in for
`etree.tostring(elem, encoding="unicode", pretty_print=True)` (the exact
textual formatting of lxml is not modelled; no claim inspects it). -/
def serializeXml : XmlTree → String
  | .elem _ n t cs =>
    "<" ++ n ++ ">" ++ t.getD "" ++ serializeForest cs ++ "</" ++ n ++ ">"

def serializeForest : List XmlTree → String
  | [] => ""
  | c :: cs => serializeXml c ++ serializeForest cs
end

/-- The empty-batch document returned when no Fatura matched
(src/xml_parser.py lines 303-306, src/backup_xml_parser.py lines 333-338);
`dataCriacao` is the datetime.now() timestamp, passed as a parameter. -/
def empty_lote_xml (numeroLote dataCriacao : String) : String :=
  "<?xml version=\"1.0\" encoding=\"UTF-8\"?>\n<loteNFCom NUMERO_LOTE="
    ++ "\"" ++ numeroLote ++ "\" DATA_CRIACAO=\"" ++ dataCriacao
    ++ "\" QUANTIDADE_NFCOM_NO_LOTE=\"0\"></loteNFCom>"

/-- The root-element header of a non-empty consolidated batch. -/
def lote_xml_header (numeroLote dataCriacao : String) (faturaCount : Nat) : String :=
  "<loteNFCom NUMERO_LOTE=\"" ++ numeroLote ++ "\" DATA_CRIACAO=\""
    ++ dataCriacao ++ "\" QUANTIDADE_NFCOM_NO_LOTE=\"" ++ toString faturaCount
    ++ "\">\n"

/-- consolidate_faturas_by_result (src/xml_parser.py lines 220-306): read
the target tag from the FIRST result record (an empty results list raises
IndexError, modelled as `none`), build the accept set from the records'
stored values, collect the matching Fatura subtrees of the readable files,
and assemble the batch (the re-parse/pretty-print normalization pass keeps
the same fragments and count and is not modelled). -/
def consolidate_faturas_by_result (files : List FileSource)
    (results : List ResultRecord) (numeroLote dataCriacao : String) :
    Option (String × Nat) :=
  match results with
  | [] => none
  | r0 :: rest =>
    let targetTag := r0.tag
    let expectedValues := (r0 :: rest).map (fun r => r.valor)
    let matching := files.flatMap (consolidateFileFaturas expectedValues targetTag)
    let faturaCount := matching.length
    if faturaCount > 0 then
      some (lote_xml_header numeroLote dataCriacao faturaCount
          ++ String.intercalate "\n" (matching.map serializeXml)
          ++ "\n</loteNFCom>",
        faturaCount)
    else some (empty_lote_xml numeroLote dataCriacao, 0)

/-- The ordered candidate paths of the UF-filtered consolidation
(src/backup_xml_parser.py lines 243-248), each a descendant search followed
by child steps. -/
def ufXpathOptions : List (String × List String) :=
  [("infNFCom", ["emit", "enderEmit", "UF"]),
   ("emit", ["enderEmit", "UF"]),
   ("dest", ["enderDest", "UF"]),
   ("UF", [])]

/-- The per-Fatura UF test (src/backup_xml_parser.py lines 270-287): the
first element of each candidate path in turn, matching case-insensitively
on the stripped text. -/
def faturaMatchesUF (targetUF : String) (fatura : XmlTree) : Bool :=
  ufXpathOptions.any (fun opt =>
    match (xpathDescendant fatura opt.1 opt.2).head? with
    | some ufElem =>
      match truthyText ufElem with
      | some s => pyUpper (pyStrip s) == pyUpper targetUF
      | none => false
    | none => false)

/-- The Fatura elements one input file contributes to the UF-filtered
consolidation; unreadable and unparseable files are skipped. -/
def ufFileFaturas (targetUF : String) : FileSource → List XmlTree
  | .ok _ doc => (iterparseEnd doc "Fatura").filter (faturaMatchesUF targetUF)
  | .invalidSource _ => []
  | .syntaxErrorSource _ => []

/-- consolidate_faturas_by_uf (src/backup_xml_parser.py lines 228-338). -/
def consolidate_faturas_by_uf (files : List FileSource)
    (targetUF numeroLote dataCriacao : String) : String × Nat :=
  let matching := files.flatMap (ufFileFaturas targetUF)
  let faturaCount := matching.length
  if faturaCount > 0 then
    (lote_xml_header numeroLote dataCriacao faturaCount
        ++ String.intercalate "\n" (matching.map serializeXml)
        ++ "\n</loteNFCom>",
      faturaCount)
  else (empty_lote_xml numeroLote dataCriacao, 0)

/-- A Fatura whose target text "abc" equals the stored extracted value "abc"
exactly (hence also up to letter case). -/
def caseFatura : XmlTree := node "Fatura" [txtElem "nNF" "abc"]

def caseDoc : XmlTree := node "documento" [caseFatura]

/-- A prior extraction result whose stored value is the lowercase "abc". -/
def caseResults : List ResultRecord := [⟨"f.xml", "nNF", "Nenhum", "abc", 1⟩]

/-- C4 counterexample: the accept set is NOT uppercased — it keeps the
stored values as they are.  With extracted value "abc", a record whose
target text is exactly "abc" (equal to the extracted value, in particular
equal up to letter case) is not selected, because the code compares the
uppercased document text "ABC" against the raw stored value "abc"; the
consolidation therefore returns the empty batch. -/
theorem consolidate_case_mismatch_counterexample :
    findtextWildcard caseFatura "nNF" = some "abc"
    ∧ faturaSelected ["abc"] "nNF" caseFatura = false
    ∧ consolidate_faturas_by_result [FileSource.ok "f.xml" caseDoc] caseResults
        "1" "2025-01-01T00:00:00"
      = some (empty_lote_xml "1" "2025-01-01T00:00:00", 0) :=
  ⟨rfl, rfl, rfl⟩

/-- C4 (amended): the accept set is the stored extracted values as they are
(not uppercased); a Fatura is selected iff the first wildcard-namespace
descendant named by the target tag exists with non-empty text whose
trimmed, uppercased form is literally in that set.  Case-insensitive
selection therefore holds exactly when the stored extracted value is
already fully uppercase. -/
theorem faturaSelected_accept_set (expectedValues : List String)
    (targetTag : String) (fat : XmlTree) :
    (faturaSelected expectedValues targetTag fat = true
      ↔ ∃ t : String, findtextWildcard fat targetTag = some t ∧ t ≠ ""
          ∧ pyUpper (pyStrip t) ∈ expectedValues)
    ∧ (∀ t v : String, findtextWildcard fat targetTag = some t → t ≠ "" →
        v ∈ expectedValues → pyUpper v = v → pyUpper (pyStrip t) = pyUpper v →
        faturaSelected expectedValues targetTag fat = true) := by
  have hiff : faturaSelected expectedValues targetTag fat = true
      ↔ ∃ t : String, findtextWildcard fat targetTag = some t ∧ t ≠ ""
          ∧ pyUpper (pyStrip t) ∈ expectedValues := by
    unfold faturaSelected
    cases hft : findtextWildcard fat targetTag with
    | none => simp
    | some t => simp [Bool.and_eq_true, bne_iff_ne, List.contains, List.elem_iff]
  refine ⟨hiff, fun t v hft ht hv hvu htv => ?_⟩
  exact hiff.mpr ⟨t, hft, ht, by rw [htv, hvu]; exact hv⟩

/-- Witness for the amended C4 statement: with an uppercase stored value
"ABC", both the untrimmed-lowercase text "abc" and the padded " abc " are
selected. -/
theorem faturaSelected_accept_set_witness :
    faturaSelected ["ABC"] "nNF" (node "Fatura" [txtElem "nNF" "abc"]) = true
    ∧ faturaSelected ["ABC"] "nNF" (node "Fatura" [txtElem "nNF" " abc "]) = true :=
  ⟨(faturaSelected_accept_set ["ABC"] "nNF"
        (node "Fatura" [txtElem "nNF" "abc"])).1.mpr
      ⟨"abc", rfl, by decide, by decide⟩,
   (faturaSelected_accept_set ["ABC"] "nNF"
        (node "Fatura" [txtElem "nNF" " abc "])).2
      " abc " "ABC" rfl (by decide) (by decide) (by decide) (by decide)⟩

/-- C10: consolidate_faturas_by_result demands a non-empty results list —
with an empty one it fails (IndexError reading the first record's TAG,
modelled as `none`) no matter what the files are; with any non-empty
results list it always completes with a value, and unreadable or
unparseable files are skipped without affecting the outcome. -/
theorem consolidate_by_result_requires_results (files files2 files3 : List FileSource)
    (r0 : ResultRecord) (res : List ResultRecord) (numeroLote dataCriacao n : String) :
    consolidate_faturas_by_result files [] numeroLote dataCriacao = none
    ∧ (consolidate_faturas_by_result files2 (r0 :: res) numeroLote
        dataCriacao).isSome = true
    ∧ consolidate_faturas_by_result (FileSource.invalidSource n :: files3)
        (r0 :: res) numeroLote dataCriacao
      = consolidate_faturas_by_result files3 (r0 :: res) numeroLote dataCriacao
    ∧ consolidate_faturas_by_result (FileSource.syntaxErrorSource n :: files3)
        (r0 :: res) numeroLote dataCriacao
      = consolidate_faturas_by_result files3 (r0 :: res) numeroLote dataCriacao := by
  refine ⟨rfl, ?_, ?_, ?_⟩
  · simp only [consolidate_faturas_by_result]
    split <;> rfl
  · simp [consolidate_faturas_by_result, consolidateFileFaturas]
  · simp [consolidate_faturas_by_result, consolidateFileFaturas]

/-- C5: whenever no Fatura record matches, both consolidators still return
a value (never null): the fixed empty-batch document together with count 0,
and that document's root carries the attribute QUANTIDADE_NFCOM_NO_LOTE="0".
For the result-driven consolidator this holds for every non-empty results
list (the empty-results failure is claim C10's separate concern). -/
theorem consolidate_empty_batch (files : List FileSource)
    (targetUF numeroLote dataCriacao : String) (files2 : List FileSource)
    (r0 : ResultRecord) (res : List ResultRecord)
    (h1 : files.flatMap (ufFileFaturas targetUF) = [])
    (h2 : files2.flatMap
        (consolidateFileFaturas ((r0 :: res).map (fun r => r.valor)) r0.tag) = []) :
    consolidate_faturas_by_uf files targetUF numeroLote dataCriacao
      = (empty_lote_xml numeroLote dataCriacao, 0)
    ∧ consolidate_faturas_by_result files2 (r0 :: res) numeroLote dataCriacao
      = some (empty_lote_xml numeroLote dataCriacao, 0)
    ∧ ∃ p s2 : String,
        empty_lote_xml numeroLote dataCriacao
          = p ++ "QUANTIDADE_NFCOM_NO_LOTE=\"0\"" ++ s2 := by
  refine ⟨?_, ?_, ?_⟩
  · simp only [consolidate_faturas_by_uf]
    rw [h1]
    rfl
  · simp only [consolidate_faturas_by_result]
    rw [h2]
    rfl
  · refine ⟨"<?xml version=\"1.0\" encoding=\"UTF-8\"?>\n<loteNFCom NUMERO_LOTE=\""
        ++ numeroLote ++ "\" DATA_CRIACAO=\"" ++ dataCriacao ++ "\" ",
      "></loteNFCom>", ?_⟩
    simp only [empty_lote_xml, String.append_assoc]
    rfl

/-- A document with one Fatura whose UF is RJ, matching no SP filter. -/
def ufNoMatchDoc : XmlTree :=
  node "documento" [node "Fatura" [node "dest" [node "enderDest" [txtElem "UF" "RJ"]]]]

/-- A document with one Fatura whose nNF is 999, not in the accept set. -/
def resultNoMatchDoc : XmlTree :=
  node "documento" [node "Fatura" [txtElem "nNF" "999"]]

/-- Witness for C5: an invalid file plus a readable file with a
non-matching Fatura yield the empty batch in both consolidation modes. -/
theorem consolidate_empty_batch_witness :
    consolidate_faturas_by_uf [FileSource.invalidSource "bad",
        FileSource.ok "f" ufNoMatchDoc] "SP" "7" "2025-01-01T00:00:00"
      = (empty_lote_xml "7" "2025-01-01T00:00:00", 0)
    ∧ consolidate_faturas_by_result [FileSource.ok "g" resultNoMatchDoc]
        (ResultRecord.mk "f.xml" "nNF" "Nenhum" "XYZ" 1 :: []) "7"
        "2025-01-01T00:00:00"
      = some (empty_lote_xml "7" "2025-01-01T00:00:00", 0)
    ∧ ∃ p s2 : String,
        empty_lote_xml "7" "2025-01-01T00:00:00"
          = p ++ "QUANTIDADE_NFCOM_NO_LOTE=\"0\"" ++ s2 :=
  consolidate_empty_batch
    [FileSource.invalidSource "bad", FileSource.ok "f" ufNoMatchDoc]
    "SP" "7" "2025-01-01T00:00:00"
    [FileSource.ok "g" resultNoMatchDoc]
    (ResultRecord.mk "f.xml" "nNF" "Nenhum" "XYZ" 1) []
    rfl rfl
